import Mathlib

/- Shallow embedding of the timesync repository (src/stat.js, src/util.js,
   src/timesync.js) and verification of its specification claims.

   Modelling conventions:
   * JavaScript numbers are modelled as ℚ; Math.sqrt, the one primitive producing
     irrational values, is modelled as Real.sqrt into ℝ.
   * Thrown JavaScript exceptions are modelled with Except Err.
   * timesync.js writes its class body in object-literal member syntax (member: value);
     each member is embedded as a function over an explicit instance state, with
     `this` in a member's own body referring to the instance, and the emit calls
     modelled as an explicit list of emitted events (the spec, section 9, directs
     modelling the event-target capability as an explicit observer interface).
     Inside member bodies JavaScript semantics is followed literally: block scoping
     of const declarations, receiver binding of nested function invocations,
     left-to-right evaluation, and dynamic method lookup.
   * Asynchrony is flattened: the eventual value (or rejection) of each awaited
     operation is passed to the embedded function as an explicit parameter. -/

deriving instance DecidableEq for Except

namespace Timesync

/-- Exception values the embedded code can raise.  referenceError and typeError are
    engine-raised (undeclared identifier / unsupported operation); emptyInput is the
    TypeError Array.prototype.reduce raises on an empty array with no initial value,
    which the spec names EmptyInputError; configError and sendFailure are the Error
    values thrown by the constructor (line 260) and _handleRPCSendError (line 78),
    named after the spec's ConfigurationError and SendFailure kinds. -/
inductive Err
  | referenceError
  | typeError
  | emptyInput
  | configError
  | sendFailure
deriving DecidableEq

/-! ## stat.js -/

/-- stat.js compare (lines 3-5): a > b ? 1 : a < b ? -1 : 0. -/
def compare (a b : ℚ) : Int :=
  if a > b then 1 else if a < b then -1 else 0

/-- stat.js add (lines 7-9). -/
def add (a b : ℚ) : ℚ := a + b

/-- stat.js sum (lines 11-13): arr.reduce(add).  reduce with no initial value throws
    on an empty array (modelled as Err.emptyInput); on a non-empty array it folds add
    over the tail starting from the head. -/
def sum : List ℚ → Except Err ℚ
  | [] => .error .emptyInput
  | x :: xs => .ok (xs.foldl add x)

/-- stat.js mean (lines 15-17): sum(arr) / arr.length, propagating sum's exception. -/
def mean (arr : List ℚ) : Except Err ℚ :=
  (sum arr).map fun s => s / (arr.length : ℚ)

/-- stat.js variance (lines 23-31): 0 when arr.length < 2, else the sample variance
    with divisor arr.length - 1. -/
def variance (arr : List ℚ) : Except Err ℚ :=
  if arr.length < 2 then .ok 0
  else
    match mean arr with
    | .error e => .error e
    | .ok m =>
      match sum (arr.map fun x => (x - m) ^ 2) with
      | .error e => .error e
      | .ok s => .ok (s / ((arr.length : ℚ) - 1))

/-- stat.js std (lines 19-21): Math.sqrt(variance(arr)). -/
noncomputable def std (arr : List ℚ) : Except Err ℝ :=
  (variance arr).map fun v => Real.sqrt (v : ℝ)

/-- Literal embedding of stat.js median (lines 34-50).  The function's parameter is
    named arr, but its first statement (line 35) evaluates the identifier len, which
    is declared nowhere in the module, so every call throws a ReferenceError before
    the input is examined at all (lines 44 and 48 likewise read the undeclared
    identifier sorted).  The embedding is therefore the constant ReferenceError. -/
def median (_arr : List ℚ) : Except Err ℚ := .error .referenceError

/-- Insertion into an ascending-sorted list (helper for the spec-described median). -/
def insertAsc (x : ℚ) : List ℚ → List ℚ
  | [] => [x]
  | y :: ys => if x ≤ y then x :: y :: ys else y :: insertAsc x ys

/-- Ascending insertion sort, modelling arr.sort(compare). -/
def sortAsc (l : List ℚ) : List ℚ := l.foldr insertAsc []

/-- Modelled from the spec: the median described in spec section 4.1 (stat.js median
    is defective, as section 9 records, so the intended algorithm is taken from the
    spec's words): for fewer than two elements return the sole element (none when
    empty); otherwise sort ascending and return the single central element when the
    length is odd, the average of the two central elements when it is even. -/
def medianSpec (arr : List ℚ) : Option ℚ :=
  if arr.length < 2 then arr.head?
  else
    let sorted := sortAsc arr
    let n := arr.length
    if n % 2 = 0 then some ((sorted.getD (n / 2) 0 + sorted.getD (n / 2 - 1) 0) / 2)
    else some (sorted.getD (n / 2) 0)

/-- foldl over add starting from a accumulates a plus the list sum. -/
theorem foldl_add_eq (ys : List ℚ) : ∀ a : ℚ, ys.foldl add a = a + ys.sum := by
  induction ys with
  | nil => intro a; simp
  | cons y ys ih => intro a; simp [add, ih]; ring

/-- sum agrees with the mathematical list sum on non-empty lists. -/
theorem sum_eq_listSum (x : ℚ) (xs : List ℚ) : sum (x :: xs) = .ok ((x :: xs).sum) := by
  simp [sum, foldl_add_eq]

/-- C7: mean of a non-empty list is its arithmetic mean (the sum of the elements
    divided by the length), mean of the empty list fails with the empty-input error,
    and mean [1,2,3] = 2. -/
theorem c7_mean_spec (x : ℚ) (xs : List ℚ) :
    mean (x :: xs) = .ok ((x :: xs).sum / ((x :: xs).length : ℚ))
    ∧ mean ([] : List ℚ) = .error .emptyInput
    ∧ mean [(1 : ℚ), 2, 3] = .ok 2 := by
  refine ⟨?_, rfl, ?_⟩
  · simp [mean, sum_eq_listSum, Except.map]
  · norm_num [mean, sum, add, Except.map]

/-- C5 (code bug): stat.js median throws a ReferenceError on every input, including
    the spec's examples, while the median the spec describes returns 2 on [3,1,2],
    5/2 on [4,1,3,2], and the sole element of a singleton. -/
theorem c5_median_broken :
    median [(3 : ℚ), 1, 2] = .error .referenceError
    ∧ medianSpec [(3 : ℚ), 1, 2] = some 2
    ∧ medianSpec [(4 : ℚ), 1, 3, 2] = some (5 / 2)
    ∧ medianSpec [(7 : ℚ)] = some 7 := by
  refine ⟨rfl, ?_, ?_, ?_⟩ <;> norm_num [medianSpec, sortAsc, insertAsc]

/-! ## timesync.js: instance state, events, dynamic values -/

/-- The instance fields relevant to the offset computation (timesync.js lines 19-33):
    offset (the current correction) and _isFirst (whether the first ever successful
    sample has not yet been applied). -/
structure TsState where
  offset : ℚ
  _isFirst : Bool
deriving DecidableEq

/-- Events emitted through the instance's event capability: ('sync', phase) at lines
    129 and 142, ('change', offset) at lines 140 and 220. -/
inductive Event
  | sync (phase : String)
  | change (offset : ℚ)
deriving DecidableEq

/-- A sample result of _getOffset (lines 223-226). -/
structure Sample where
  roundtrip : ℚ
  offset : ℚ
deriving DecidableEq

/-- A wire envelope (the constant jsonrpc tag elided); absent fields are none. -/
structure Envelope where
  id : Option ℕ
  result : Option ℚ
  method : Option String
deriving DecidableEq

/-- The JavaScript values receive and sync manipulate dynamically: strings, numbers,
    envelope objects, arrays of per-peer results (number or null), and promises of
    such arrays. -/
inductive JsV
  | str (s : String)
  | num (q : ℚ)
  | env (e : Envelope)
  | arr (xs : List (Option ℚ))
  | promise (xs : List (Option ℚ))
deriving DecidableEq

/-- JavaScript truthiness of an optional value (none models undefined). -/
def truthy : Option JsV → Bool
  | none => false
  | some (.str s) => s ≠ ""
  | some (.num q) => q ≠ 0
  | some _ => true

/-- Property access data.id: only envelope objects carry an id. -/
def jsId : JsV → Option ℕ
  | .env e => e.id
  | _ => none

/-- Property access data.result. -/
def jsResult : JsV → Option ℚ
  | .env e => e.result
  | _ => none

/-- Array.prototype.filter, dynamically dispatched: only arrays have a filter method;
    invoking .filter on any other value (in particular on a Promise) throws a
    TypeError. -/
def jsFilter (v : JsV) (p : Option ℚ → Bool) : Except Err (List (Option ℚ)) :=
  match v with
  | .arr xs => .ok (xs.filter p)
  | _ => .error .typeError

/-- _validOffset (lines 151-153): offset !== null && !isNaN(offset) &&
    isFinite(offset).  In the ℚ model NaN and Infinity do not arise, so validity is
    exactly non-null. -/
def validOffset (o : Option ℚ) : Bool := o.isSome

/-! ## _getOffset (lines 202-227) -/

/-- Literal embedding of _getOffset, given the two clock readings and the rpc outcome
    (some timestamp when the rpc promise fulfills, none when it rejects).  The const
    timestamp (line 206) is declared inside the try block (lines 205-210) and is not
    in scope at line 214; evaluating it there throws a ReferenceError, so on a
    successful rpc the async function rejects before the first-offset block (lines
    217-221) runs and before any sample is returned.  On a failed rpc the catch
    (lines 207-210) returns null.  Returns the final state, the emitted events, and
    the sample-or-null result (or the thrown exception). -/
def getOffsetLiteral (st : TsState) (_start _endT : ℚ) (rpcResult : Option ℚ) :
    TsState × List Event × Except Err (Option Sample) :=
  match rpcResult with
  | none => (st, [], .ok none)
  | some _ => (st, [], .error .referenceError)

/-- Modelled from the spec: sampleOnce as described in spec section 4.3 (and as lines
    211-226 state it, defeated there by the scoping slip): roundtrip = end - start,
    offset = timestamp - end + roundtrip / 2; the first ever successful sample is
    applied immediately (instance offset set, first flag cleared, change emitted),
    later samples leave the state alone. -/
def getOffsetSpec (st : TsState) (start endT : ℚ) (rpcResult : Option ℚ) :
    TsState × List Event × Option Sample :=
  match rpcResult with
  | none => (st, [], none)
  | some timestamp =>
    let roundtrip := endT - start
    let offset := timestamp - endT + roundtrip / 2
    if st._isFirst then
      ({ offset := offset, _isFirst := false }, [.change offset], some ⟨roundtrip, offset⟩)
    else
      (st, [], some ⟨roundtrip, offset⟩)

/-- C2 (code bug): on the spec's example exchange (start 100, peer timestamp 1000,
    end 120) the literal _getOffset rejects with a ReferenceError — timestamp is out
    of scope at line 214 — instead of returning a sample, while the computation the
    code itself states produces roundtrip 20 and offset 890. -/
theorem c2_getOffset_formula :
    getOffsetLiteral ⟨0, false⟩ 100 120 (some 1000)
      = (⟨0, false⟩, [], .error .referenceError)
    ∧ getOffsetSpec ⟨0, false⟩ 100 120 (some 1000)
      = (⟨0, false⟩, [], some ⟨20, 890⟩) := by
  refine ⟨rfl, ?_⟩
  norm_num [getOffsetSpec]

/-- C6 (code bug): on the first-ever successful sample the literal _getOffset throws
    before reaching the first-offset block (lines 217-221), so the offset is not
    applied, the first flag is not cleared and no change event is emitted; the
    intended behavior (spec section 4.3) applies the offset 495 immediately, clears
    the flag and emits change, and a later sample leaves the state untouched. -/
theorem c6_first_sample :
    getOffsetLiteral ⟨0, true⟩ 0 10 (some 500) = (⟨0, true⟩, [], .error .referenceError)
    ∧ getOffsetSpec ⟨0, true⟩ 0 10 (some 500)
      = (⟨495, false⟩, [.change 495], some ⟨10, 495⟩)
    ∧ getOffsetSpec ⟨495, false⟩ 20 30 (some 600)
      = (⟨495, false⟩, [], some ⟨10, 575⟩) := by
  refine ⟨rfl, ?_, ?_⟩ <;> norm_num [getOffsetSpec]

/-! ## Constructor (lines 257-261) -/

/-- The value supplied for the peers option: either an array (always truthy in
    JavaScript, even when empty) or a comma separated string (truthy iff
    non-empty). -/
inductive PeersVal
  | arrv (l : List String)
  | strv (s : String)
deriving DecidableEq

/-- Truthiness of the provided server option (a string; absent is falsy). -/
def truthyServer : Option String → Bool
  | none => false
  | some s => s ≠ ""

/-- Truthiness of the provided peers option. -/
def truthyPeers : Option PeersVal → Bool
  | none => false
  | some (.arrv _) => true
  | some (.strv s) => s ≠ ""

/-- The constructor's mutual-exclusion check (lines 257-261): if (options.server &&
    options.peers) throw new Error('Configure either option "peers" or "server",
    not both.').  The check is on the provided options, before defaults are merged. -/
def constructorCheck (server : Option String) (peers : Option PeersVal) :
    Except Err Unit :=
  if truthyServer server && truthyPeers peers then .error .configError else .ok ()

/-- C8: providing both server and peers (both truthy) makes construction fail with
    the configuration error before any instance is set up, while providing only one
    of the two passes the check. -/
theorem c8_constructor_exclusive (server : Option String) (peers : Option PeersVal)
    (hs : truthyServer server = true) (hp : truthyPeers peers = true) :
    constructorCheck server peers = .error .configError
    ∧ (∀ s : Option String, constructorCheck s none = .ok ())
    ∧ (∀ p : Option PeersVal, constructorCheck none p = .ok ()) := by
  refine ⟨?_, ?_, ?_⟩
  · simp [constructorCheck, hs, hp]
  · intro s; simp [constructorCheck, truthyPeers]
  · intro p; simp [constructorCheck, truthyServer]

/-- Witness for C8 at concrete options: a server uri together with a peer list. -/
theorem c8_constructor_exclusive_witness :
    constructorCheck (some "http://server") (some (.arrv ["a", "b"])) = .error .configError :=
  (c8_constructor_exclusive (some "http://server") (some (.arrv ["a", "b"]))
    (by decide) (by decide)).1

/-! ## sync (lines 128-143) -/

/-- Literal embedding of sync(), given the eventual per-peer results (number or null)
    of the _syncWithPeer promises.  Line 135 binds all to the Promise.all value
    without awaiting it, so line 136 invokes .filter on a Promise, which throws a
    TypeError: the async function rejects after emitting only the ('sync', 'start')
    event of line 129, leaving the instance state unchanged.  The code below the
    filter (lines 137-142) is embedded as written but is unreachable.  Returns the
    final state, the emitted events, and normal or exceptional completion. -/
def syncLiteral (st : TsState) (peerResults : List (Option ℚ)) :
    TsState × List Event × Except Err Unit :=
  let evs : List Event := [.sync "start"]
  let all : JsV := .promise peerResults
  match jsFilter all validOffset with
  | .error e => (st, evs, .error e)
  | .ok offsets =>
    if offsets.length > 0 then
      match mean (offsets.filterMap id) with
      | .ok m => ({ st with offset := m }, evs ++ [.change m, .sync "end"], .ok ())
      | .error e => (st, evs, .error e)
    else (st, evs ++ [.sync "end"], .ok ())

/-- Modelled from the spec: the corrected sync() of spec sections 4.4 and 9 (await
    the joined per-peer results, then filter): emit ('sync','start'); keep the valid
    per-peer offsets; if any remain, set the instance offset to their mean and emit
    change with it; emit ('sync','end') unconditionally. -/
def syncSpec (st : TsState) (peerResults : List (Option ℚ)) : TsState × List Event :=
  let offsets := (peerResults.filter validOffset).filterMap id
  if 0 < offsets.length then
    let m := offsets.sum / (offsets.length : ℚ)
    ({ st with offset := m }, [.sync "start", .change m, .sync "end"])
  else
    (st, [.sync "start", .sync "end"])

/-- C1 (code bug): sync() with two peers yielding offsets 100 and 300 — and likewise
    with every peer failing — rejects with a TypeError after emitting only
    ('sync','start'), because line 136 calls .filter on the not-yet-awaited
    Promise.all value.  The offset stays 5 instead of becoming the mean 200, and
    neither change nor ('sync','end') is emitted. -/
theorem c1_sync_literal :
    syncLiteral ⟨5, false⟩ [some 100, some 300]
      = (⟨5, false⟩, [.sync "start"], .error .typeError)
    ∧ syncLiteral ⟨5, false⟩ [none, none]
      = (⟨5, false⟩, [.sync "start"], .error .typeError) :=
  ⟨rfl, rfl⟩

/-- The corrected sync of spec sections 4.4 and 9 on the spec's two-peer example:
    the offset becomes the mean 200 and the events are start, change, end in order. -/
theorem syncSpec_two_peers :
    syncSpec ⟨5, false⟩ [some 100, some 300]
      = (⟨200, false⟩, [.sync "start", .change 200, .sync "end"]) := by
  simp only [syncSpec, validOffset, List.filter, List.filterMap, Option.isSome]
  norm_num

/-- The corrected sync leaves the offset unchanged and emits no change event when
    every peer fails, still emitting start and end in that order. -/
theorem syncSpec_all_fail (st : TsState) :
    syncSpec st [none, none] = (st, [.sync "start", .sync "end"]) := by
  simp [syncSpec, validOffset]

/-! ## receive and rpc (lines 55-122) -/

/-- The body of the reply handler that rpc registers under the request id (lines
    96-100): delete this._inProgress[id]; resolve(data).  It is embedded as a
    function of the _inProgress property of the handler's receiver: when the receiver
    has an _inProgress map the entry is removed and the call resolves with data, and
    when the receiver has no _inProgress property (it is undefined) the delete throws
    a TypeError and resolve is never reached. -/
def pendingHandlerBody (receiverInProgress : Option (List ℕ)) (id : ℕ)
    (data : Option ℚ) : Except Err (List ℕ × Option ℚ) :=
  match receiverInProgress with
  | none => .error .typeError
  | some m => .ok (m.erase id, data)

/-- The action receive takes. -/
inductive RAct
  | handlerThrew (e : Err)
  | resolved (id : ℕ) (v : Option ℚ)
  | sentReply (dest : Option JsV) (id : ℕ) (result : ℚ)
  | noop
deriving DecidableEq

/-- Literal embedding of receive (lines 55-74).  nowV is the value this.now() yields
    at line 71 and pending is the key set of this._inProgress.  Lines 56-59
    reinterpret a single-argument call (when data is undefined, the first argument
    becomes the envelope and the source becomes undefined).  Line 61 dispatches a
    truthy envelope whose id matches a pending entry to the stored handler; lines
    65-73 answer any other envelope carrying an id by sending our current time back.
    At line 63 the handler is fetched and invoked as a method of this._inProgress, so
    its receiver is the map itself, whose own _inProgress property is undefined: the
    invocation is pendingHandlerBody none and throws, leaving pending unchanged.
    Returns the pending map afterwards and the action taken. -/
def receiveLiteral (nowV : ℚ) (pending : List ℕ) (sender data : Option JsV) :
    List ℕ × RAct :=
  let args := if data = none then ((none : Option JsV), sender) else (sender, data)
  match args.2 with
  | some d =>
    if truthy (some d) then
      match jsId d with
      | some id =>
        if id ∈ pending then
          match pendingHandlerBody none id (jsResult d) with
          | .error e => (pending, .handlerThrew e)
          | .ok (m, v) => (m, .resolved id v)
        else (pending, .sentReply args.1 id nowV)
      | none => (pending, .noop)
    else (pending, .noop)
  | none => (pending, .noop)

/-- The three relevant outcomes of this.send at lines 104-116: throw synchronously,
    return a promise that later rejects, or return a promise while the reply is
    awaited. -/
inductive SendOutcome
  | throwsSync
  | rejectsLater
  | pends
deriving DecidableEq

/-- _handleRPCSendError (lines 76-79): remove the pending entry and reject the call
    with Error('Send failure'). -/
def handleRPCSendError (pending : List ℕ) (id : ℕ) : List ℕ × Err :=
  (pending.erase id, .sendFailure)

/-- rpc (lines 88-122): allocate the next id (util.nextId, util.js lines 42-45),
    register the reply handler under it (line 96), and invoke send.  A synchronous
    throw is caught at lines 111-113 and a later rejection is routed through the
    handler bound at line 116; both run _handleRPCSendError.  Otherwise the call
    stays pending until receive resolves it.  Returns the pending map afterwards,
    the next id counter, and the rejection if the send path failed. -/
def rpc (pending : List ℕ) (nextId : ℕ) (outcome : SendOutcome) :
    List ℕ × ℕ × Option Err :=
  let id := nextId
  let pending1 := pending ++ [id]
  match outcome with
  | .throwsSync =>
    let r := handleRPCSendError pending1 id
    (r.1, nextId + 1, some r.2)
  | .rejectsLater =>
    let r := handleRPCSendError pending1 id
    (r.1, nextId + 1, some r.2)
  | .pends => (pending1, nextId + 1, none)

/-- C4 (code bug): with request id 0 pending, a matching reply envelope does not
    remove the entry and does not resolve the call — the stored handler is invoked
    with the pending map as its receiver and throws a TypeError — while the two
    send-failure paths do remove the entry and reject with the send-failure error,
    as the claim states. -/
theorem c4_reply_handler_throws :
    receiveLiteral 1234 [0] none (some (.env ⟨some 0, some 1000, none⟩))
      = ([0], .handlerThrew .typeError)
    ∧ rpc [] 0 .throwsSync = ([], 1, some .sendFailure)
    ∧ rpc [] 0 .rejectsLater = ([], 1, some .sendFailure)
    ∧ rpc [] 0 .pends = ([0], 1, none) :=
  ⟨rfl, rfl, rfl, rfl⟩

/-- C9: receive with a single argument behaves identically to receive with an
    undefined source — the argument normalization of lines 56-59 maps both
    invocations to the same source and envelope, so the resulting pending map and
    action coincide for every value and every instance state. -/
theorem c9_receive_single_arg (nowV : ℚ) (pending : List ℕ) (v : JsV) :
    receiveLiteral nowV pending (some v) none
      = receiveLiteral nowV pending none (some v) := by
  simp [receiveLiteral]

/-! ## _syncWithPeer (lines 162-194) -/

open Classical in
/-- Literal embedding of the aggregation half of _syncWithPeer (lines 181-193),
    applied to the collected results all (one entry per attempt, null for a failed
    attempt).  Line 186 computes stat.std(roundtrips) + stat.median(roundtrips) left
    to right, so std's exception would propagate first and median's exception
    propagates next; since stat.js median always throws a ReferenceError, the whole
    function rejects whenever std returns.  The remaining lines (187-193: keep the
    results whose roundtrip is below the limit, return the mean of their offsets or
    null when none remain) are embedded as written but are unreachable. -/
noncomputable def syncWithPeerAggregate (all : List (Option Sample)) :
    Except Err (Option ℚ) :=
  let results := all.filterMap id
  let roundtrips := results.map Sample.roundtrip
  match std roundtrips, median roundtrips with
  | .error e, _ => .error e
  | .ok _, .error e => .error e
  | .ok s, .ok m =>
    let limit : ℝ := s + (m : ℝ)
    let filtered := results.filter fun r => decide ((r.roundtrip : ℝ) < limit)
    let offsets := filtered.map Sample.offset
    if offsets.length > 0 then (mean offsets).map some else .ok none

/-- C3 (code bug): on four collected samples with roundtrips [10, 12, 11, 500] the
    aggregation of _syncWithPeer rejects with a ReferenceError — stat.js median
    throws on every input — instead of discarding the outlier and returning the mean
    of the remaining offsets. -/
theorem c3_aggregate_throws :
    syncWithPeerAggregate
        [some ⟨10, 2⟩, some ⟨12, 4⟩, some ⟨11, 6⟩, some ⟨500, 1000⟩]
      = .error .referenceError := by
  have hv : ∃ q : ℚ, variance [(10 : ℚ), 12, 11, 500] = .ok q := ⟨_, rfl⟩
  obtain ⟨q, hq⟩ := hv
  simp only [syncWithPeerAggregate, std, median, List.filterMap, List.map]
  norm_num [hq, Except.map]

/-- The receiver binding of the nested helper functions sync, waitAndSync and
    notDone of _syncWithPeer (lines 166-176): timesync.js is an ES module, hence
    strict mode, and all three are declared as plain functions and invoked as plain
    calls, so `this` inside them is undefined — modelled as none.  some () stands for
    the counterfactual binding to the enclosing instance that the method's code
    evidently intends (the original closure-based library had it). -/
def helperReceiver : Option Unit := none

/-- The whilst loop of _syncWithPeer under an intact instance binding (lines 170-179
    via util.whilst, util.js lines 32-36): while notDone (all.length < repeat, line
    175) holds, waitAndSync runs one more attempt; attempt i is the outcome of the
    i-th attempt's _getOffset promise.  When the attempt fulfills, line 167 appends
    exactly one entry (all.push(result)); when it rejects, the rejection propagates
    and aborts the loop.  Lean accepts the recursion with the measure
    repeat - all.length, which is exactly the bound a fulfilling attempt enforces:
    each surviving iteration grows all by one entry. -/
def whilstRun (rep : ℤ) (attempt : ℕ → Except Err (Option Sample))
    (all : List (Option Sample)) : Except Err (List (Option Sample)) :=
  if _h : (all.length : ℤ) < rep then
    match attempt all.length with
    | .error e => .error e
    | .ok r => whilstRun rep attempt (all ++ [r])
  else .ok all
termination_by (rep - (all.length : ℤ)).toNat
decreasing_by
  simp only [List.length_append, List.length_cons, List.length_nil]
  omega

/-- Literal embedding of the whilst loop call at line 179: util.whilst first
    evaluates the condition notDone, whose body reads this.options.repeat (line 175);
    with the receiver binding absent, `this` is undefined and the property access
    throws a TypeError before any iteration.  With the binding granted the loop of
    whilstRun runs. -/
def whilstLoop (rep : ℤ) (receiver : Option Unit)
    (attempt : ℕ → Except Err (Option Sample)) (all : List (Option Sample)) :
    Except Err (List (Option Sample)) :=
  match receiver with
  | none => .error .typeError
  | some _ => whilstRun rep attempt all

/-- Literal embedding of the sampling phase of _syncWithPeer (lines 162-179): line
    178 runs the first attempt unconditionally, before the repeat count is consulted,
    by calling sync() as a plain function; sync's body reads this._getOffset (line
    167), so with the receiver binding absent the call throws a TypeError and
    _syncWithPeer rejects before util.whilst is ever invoked and before any entry is
    appended.  With the binding granted, a rejecting first attempt propagates, and a
    fulfilling one pushes its result and enters the whilst loop of line 179. -/
def syncWithPeerSampling (rep : ℤ) (receiver : Option Unit)
    (attempt : ℕ → Except Err (Option Sample)) : Except Err (List (Option Sample)) :=
  match receiver with
  | none => .error .typeError
  | some _ =>
    match attempt 0 with
    | .error e => .error e
    | .ok r => whilstLoop rep receiver attempt [r]

/-- One fulfilled iteration of the loop appends the attempt's result. -/
theorem whilstRun_step (rep : ℤ) (attempt : ℕ → Except Err (Option Sample))
    (all : List (Option Sample)) (r : Option Sample)
    (hlt : (all.length : ℤ) < rep) (hr : attempt all.length = .ok r) :
    whilstRun rep attempt all = whilstRun rep attempt (all ++ [r]) := by
  rw [whilstRun, dif_pos hlt, hr]

/-- The loop stops (fulfilling with the collected list) once the length reaches the
    repeat target. -/
theorem whilstRun_stop (rep : ℤ) (attempt : ℕ → Except Err (Option Sample))
    (all : List (Option Sample)) (h : ¬((all.length : ℤ) < rep)) :
    whilstRun rep attempt all = .ok all := by
  rw [whilstRun, dif_neg h]

/-- Starting from the first n attempt results, the loop with every attempt
    fulfilling runs the remaining attempts in order until the length reaches the
    repeat target (or stops at once when it is already reached). -/
theorem whilstRun_range (rep : ℤ) (sample : ℕ → Option Sample) :
    ∀ (fuel n : ℕ), (rep - (n : ℤ)).toNat ≤ fuel →
      whilstRun rep (fun i => .ok (sample i)) ((List.range n).map sample)
        = .ok ((List.range (max n rep.toNat)).map sample) := by
  intro fuel
  induction fuel with
  | zero =>
    intro n hn
    have h1 : ¬((((List.range n).map sample).length : ℤ) < rep) := by
      simp only [List.length_map, List.length_range]
      omega
    have h2 : max n rep.toNat = n := by omega
    rw [whilstRun_stop rep _ _ h1, h2]
  | succ k ih =>
    intro n hn
    by_cases hc : ((n : ℤ)) < rep
    · have hpos : ((((List.range n).map sample).length : ℤ)) < rep := by
        simp only [List.length_map, List.length_range]
        exact hc
      have hok : (fun i => (Except.ok (sample i) : Except Err (Option Sample)))
          ((List.range n).map sample).length = .ok (sample n) := by
        simp only [List.length_map, List.length_range]
      have harg : (List.range n).map sample ++ [sample n]
          = (List.range (n + 1)).map sample := by
        simp [List.range_succ]
      have h3 : max (n + 1) rep.toNat = max n rep.toNat := by omega
      rw [whilstRun_step rep _ _ (sample n) hpos hok, harg, ih (n + 1) (by omega), h3]
    · have h1 : ¬((((List.range n).map sample).length : ℤ) < rep) := by
        simp only [List.length_map, List.length_range]
        omega
      have h2 : max n rep.toNat = n := by omega
      rw [whilstRun_stop rep _ _ h1, h2]

/-- C10 (code bug): the sampling phase of _syncWithPeer throws a TypeError at the
    first await sync() — the nested helpers are plain strict-mode calls with `this`
    undefined (helperReceiver) — so zero attempts are performed and zero entries
    appended, for every repeat value and every would-be attempt outcome, and the
    claimed count max(1, repeat) is never reached.  The count the claim describes is
    what the loop structure does produce once the instance binding is granted and
    every attempt fulfills: exactly max(1, repeat) attempts, collected in order, the
    first unconditional and one appended entry per attempt. -/
theorem c10_loop_attempts (rep : ℤ) (attempt : ℕ → Except Err (Option Sample))
    (sample : ℕ → Option Sample) :
    syncWithPeerSampling rep helperReceiver attempt = .error .typeError
    ∧ syncWithPeerSampling rep (some ()) (fun i => .ok (sample i))
        = .ok ((List.range (max 1 rep).toNat).map sample)
    ∧ (((List.range (max 1 rep).toNat).map sample).length : ℤ) = max 1 rep := by
  refine ⟨rfl, ?_, ?_⟩
  · have hstep : syncWithPeerSampling rep (some ()) (fun i => .ok (sample i))
        = whilstRun rep (fun i => .ok (sample i)) [sample 0] := rfl
    have h0 : [sample 0] = (List.range 1).map sample := rfl
    rw [hstep, h0, whilstRun_range rep sample ((rep - 1).toNat) 1 le_rfl]
    have h2 : max 1 rep.toNat = (max 1 rep).toNat := by omega
    rw [h2]
  · simp only [List.length_map, List.length_range]
    omega

end Timesync
